import Mathlib

/-!
Verification development for a side-scrolling arcade game engine
(a flappy-bird variant written against a reactive-streams library).

The embedding below is a shallow translation of the game's pure core:
the deterministic RNG, the axis-aligned collision predicate, the
immutable `State` record, and the pure `State → State` reducers produced
by each event-source adapter (`tick`, obstacle spawn, obstacle motion,
star and skull lifecycle, ghost recording, jump, pause, restart).

Modelling conventions:
* JS numbers are modelled as `ℚ` for continuous quantities (positions,
  velocities, pipe geometry) and as `ℤ` where the program only ever
  stores integers (lives, score, fullScore, time in ms, RNG seed, run
  counter).  The JS `%` operator (truncating remainder) is `Int.tmod`.
* The reactive `ReplaySubject` holding ghost samples is modelled as an
  append-only list.
* Boolean conditions of the source are translated to decidable `Prop`s
  (`if _ then _ else _`), preserving the source's evaluation order.
-/

/-! ## Constants (from the `Viewport`, `Birb` and `Constants` objects) -/

def CANVAS_WIDTH : ℚ := 600
def CANVAS_HEIGHT : ℚ := 400
def BIRB_WIDTH : ℚ := 42
def BIRB_HEIGHT : ℚ := 30
def PIPE_WIDTH : ℚ := 50
def TICK_RATE_MS : ℤ := 50
def GRAVITY : ℚ := 1
def GROUND : ℚ := 400
def CEILING : ℚ := 0
def SEED : ℤ := 1234
def JUMP_SPEED : ℚ := -5
def PIPE_SPEED : ℚ := 8
def BIRD_X : ℚ := CANVAS_WIDTH * (3 / 10) - BIRB_WIDTH / 2

/-! ## Deterministic RNG (the `RNG` class) -/

namespace RNG

def m : ℤ := 0x80000000
def a : ℤ := 1103515245
def c : ℤ := 12345

/-- Linear-congruential step: `(a * seed + c) % m` with JS truncating `%`. -/
def hash (seed : ℤ) : ℤ := (a * seed + c).tmod m

/-- Affine remap of a hash value, intended to land in `[-1, 1]`. -/
def scale (h : ℤ) : ℚ := 2 * (h : ℚ) / ((m : ℚ) - 1) - 1

end RNG

/-- `generateRandom(a, b, seed)`: a seeded draw remapped into `[a, b]`. -/
def generateRandom (a b : ℚ) (seed : ℤ) : ℚ :=
  RNG.scale (RNG.hash seed) / 2 * (b - a) + a + (b - a) / 2

/-! ## Geometry -/

/-- Axis-aligned bounding box (the `Box` type). -/
structure Box where
  x : ℚ
  y : ℚ
  width : ℚ
  height : ℚ
deriving DecidableEq, Repr

def createBox (x y width height : ℚ) : Box :=
  { x := x, y := y, width := width, height := height }

/-- Collision predicate `isOverlap`: the boxes overlap unless one of the
four margin-adjusted separation clauses holds (margins: 15 horizontally
on both sides, 5 above, 15 below). -/
def isOverlap (box1 box2 : Box) : Prop :=
  ¬ (box1.x ≥ box2.x + box2.width - 15 ∨
     box1.x + box1.width ≤ box2.x + 15 ∨
     box1.y ≥ box2.y + box2.height - 5 ∨
     box1.y + box1.height ≤ box2.y + 15)

instance (box1 box2 : Box) : Decidable (isOverlap box1 box2) := by
  unfold isOverlap; infer_instance

/-! ## Game data -/

/-- A pipe obstacle currently tracked by the game (the `Pipe` type). -/
structure Pipe where
  gapY : ℚ
  gapHeight : ℚ
  delay : ℚ
  x : ℚ
  special : Bool
deriving DecidableEq, Repr

/-- A parsed course row (an element of `pipe_array` in `state$`). -/
structure Entry where
  gapY : ℚ
  gapHeight : ℚ
  delay : ℚ
  special : Bool
deriving DecidableEq, Repr

/-- One recorded ghost-trail sample (the `Ghost` type). -/
structure Ghost where
  time : ℤ
  y : ℚ
  run : ℤ
deriving DecidableEq, Repr

/-- The immutable game snapshot (the `State` type). -/
structure State where
  gameEnd : Bool
  gameStart : Bool
  gamePause : Bool
  position : ℚ
  velocity : ℚ
  lives : ℤ
  seed : ℤ
  score : ℤ
  resume : Bool
  fullScore : ℤ
  pipes : List Pipe
  all_pipes : List Pipe
  time : ℤ
  pause : Bool
  starx : ℚ
  stary : ℚ
  skullx : ℚ
  skully : ℚ
  ghosts : List Ghost
  run : ℤ
deriving DecidableEq, Repr

/-- The initial snapshot (`initialState`). -/
def initialState : State :=
  { gameEnd := false
    gameStart := false
    gamePause := false
    position := GROUND / 2
    velocity := 0
    lives := 3
    seed := SEED
    score := 0
    resume := false
    fullScore := 0
    pipes := []
    all_pipes := []
    time := 0
    pause := false
    starx := -100
    stary := -100
    skullx := -100
    skully := -100
    ghosts := []
    run := 1 }

/-- The top segment of a pipe, as built inside `tick`. -/
def topPipeBox (p : Pipe) : Box :=
  createBox p.x 0 PIPE_WIDTH ((p.gapY - p.gapHeight / 2) * CANVAS_HEIGHT)

/-- The bottom segment of a pipe, as built inside `tick`. -/
def bottomPipeBox (p : Pipe) : Box :=
  createBox p.x ((p.gapY + p.gapHeight / 2) * CANVAS_HEIGHT) PIPE_WIDTH
    (CANVAS_HEIGHT - (p.gapY + p.gapHeight / 2) * CANVAS_HEIGHT)

/-! ## The simulation tick -/

/-- One discrete simulation step (the `tick` function): start the game,
check the win condition, freeze while paused or ended, otherwise
integrate physics and resolve collisions (with the `resume`
invulnerability window after a fresh hit). -/
def tick (s : State) : State :=
  if s.gameStart = false then { s with gameStart := true }
  else if s.gameStart = true ∧ s.score = s.fullScore then { s with gameEnd := true }
  else if s.gamePause = true ∨ s.gameEnd = true then s
  else
    let newPosition := s.position + s.velocity
    let newVelocity := s.velocity + GRAVITY
    let newSeed := RNG.hash s.seed
    let newTime := s.time + TICK_RATE_MS
    let normal : State :=
      { s with position := newPosition, velocity := newVelocity, seed := newSeed,
               time := newTime, resume := false }
    let hit_bottom_state : State :=
      { s with lives := s.lives - 1, seed := newSeed, resume := true,
               velocity := generateRandom (-10) (-3) s.seed, time := newTime }
    let hit_top_state : State :=
      { s with lives := s.lives - 1, seed := newSeed, resume := true,
               velocity := generateRandom 3 10 s.seed, time := newTime }
    let bird_box := createBox BIRD_X s.position BIRB_WIDTH BIRB_HEIGHT
    let hit_top_results := s.pipes.countP (fun p => decide (isOverlap bird_box (topPipeBox p)))
    if 0 < hit_top_results ∨ s.position ≤ CEILING then
      if s.resume = false then hit_top_state else { normal with resume := true }
    else
      let hit_bottom_results :=
        s.pipes.countP (fun p => decide (isOverlap bird_box (bottomPipeBox p)))
      if 0 < hit_bottom_results ∨ s.position ≥ GROUND then
        if s.resume = false then hit_bottom_state else { normal with resume := true }
      else normal

/-! ## Event-source adapters (each produces a pure `State → State` reducer) -/

/-- Scoring weight of a pipe (`special ? 2 : 1`). -/
def weight (p : Pipe) : ℤ := if p.special = true then 2 else 1

/-- Scoring weight of a course entry (`special ? 2 : 1`). -/
def entryWeight (e : Entry) : ℤ := if e.special = true then 2 else 1

/-- The target score: total weight of the course (`pipe_array.reduce`). -/
def totalWeight (arr : List Entry) : ℤ := arr.foldl (fun sum e => sum + entryWeight e) 0

/-- The score recomputed by the obstacle-motion adapter: total weight of
the tracked pipes whose trailing edge is left of the current score. -/
def scoreOf (l : List Pipe) (sc : ℤ) : ℤ :=
  (l.filter (fun p => decide (p.x - PIPE_WIDTH < (sc : ℚ)))).foldl
    (fun sum p => sum + weight p) 0

/-- The fresh pipe injected for a course entry (the `newPipe` object in
`pipes$`): full geometry, at the right edge of the playfield. -/
def newPipe (e : Entry) : Pipe :=
  { gapY := e.gapY, gapHeight := e.gapHeight, delay := e.delay,
    x := CANVAS_WIDTH, special := e.special }

/-- Duplicate-injection guard of `pipes$` (`pipeExists`): some tracked
pipe already carries this entry's identity. -/
def pipeExists (e : Entry) (l : List Pipe) : Prop :=
  ∃ p ∈ l, p.gapY = e.gapY ∧ p.gapHeight = e.gapHeight ∧ p.delay = e.delay

instance (e : Entry) (l : List Pipe) : Decidable (pipeExists e l) := by
  unfold pipeExists; infer_instance

/-- The obstacle-spawn reducer for one course entry (the closure built in
`pipes$`): set `fullScore` on first use, then inject the entry's pipe
once its delay has elapsed, guarded against duplicate injection. -/
def pipesReducer (arr : List Entry) (e : Entry) (s : State) : State :=
  if s.gamePause = true ∨ s.gameEnd = true then s
  else if s.fullScore = 0 then { s with fullScore := totalWeight arr }
  else if (e.delay * 1000 : ℚ) ≤ (s.time : ℚ) then
    if pipeExists e s.all_pipes then s
    else { s with all_pipes := s.all_pipes ++ [newPipe e] }
  else s

/-- The obstacle-motion reducer (`movePipes$`): shift every tracked pipe
left by `PIPE_SPEED`, keep the on-screen ones in `pipes`, and recompute
the score (frozen once the game has ended); no-op while paused. -/
def movePipesReducer (s : State) : State :=
  let updatedPipes := s.all_pipes.map (fun p => { p with x := p.x - PIPE_SPEED })
  let newScore : ℤ := if s.gameEnd = false then scoreOf s.all_pipes s.score else s.score
  if s.gamePause = true then s
  else
    { s with all_pipes := updatedPipes,
             pipes := updatedPipes.filter (fun p => decide (p.x > -PIPE_WIDTH)),
             score := newScore }

/-- The star power-up reducer (`star$`): collecting the star grants one
life; the star relocates on a fixed time modulus and drifts left. -/
def starReducer (s : State) : State :=
  if s.gameStart = false ∨ s.gameEnd = true ∨ s.gamePause = true then s
  else if s.resume = false ∧ |s.stary - s.position| ≤ 10 ∧ |s.starx - BIRD_X| ≤ 10 then
    { s with lives := s.lives + 1, starx := -100 }
  else if s.time.tmod 10000 = 3000 then
    { s with starx := generateRandom 50 CANVAS_WIDTH s.seed,
             stary := generateRandom 50 CANVAS_HEIGHT (s.seed + 1) }
  else { s with starx := s.starx - 10 }

/-- The skull hazard reducer (`skull$`): touching the skull zeroes the
remaining lives; the skull relocates on a fixed time modulus and drifts
left. -/
def skullReducer (s : State) : State :=
  if s.gameStart = false ∨ s.gameEnd = true ∨ s.gamePause = true then s
  else if s.resume = false ∧ |s.skully - s.position| ≤ 10 ∧ |s.skullx - BIRD_X| ≤ 10 then
    { s with resume := true, lives := 0, skullx := -100 }
  else if s.time.tmod 10000 = 2000 then
    { s with skullx := generateRandom 50 CANVAS_WIDTH s.seed,
             skully := generateRandom 50 CANVAS_HEIGHT (s.seed + 1) }
  else { s with skullx := s.skullx - 10 }

/-- The ghost-recording reducer (`ghost$`): append the current sample to
the trail log while the game is running. -/
def ghostReducer (s : State) : State :=
  if s.gameStart = false ∨ s.gameEnd = true ∨ s.gamePause = true then s
  else { s with ghosts := s.ghosts ++ [{ time := s.time, y := s.position, run := s.run }] }

/-- The jump reducer (`jump$`): override the velocity with the fixed
jump speed unless blocked. -/
def jumpReducer (s : State) : State :=
  if s.resume = false ∧ s.gameEnd = false ∧ s.pause = false then
    { s with velocity := JUMP_SPEED }
  else s

/-- The pause-toggle reducer (`pause$`). -/
def pauseReducer (s : State) : State := { s with gamePause := !s.gamePause }

/-- The restart reducer (`restart$`): back to the initial snapshot,
keeping the ghost log and bumping the run counter. -/
def restartReducer (s : State) : State :=
  { initialState with run := s.run + 1, ghosts := s.ghosts }

/-! ## Trace machinery

The scheduler (`merge` + `scan`) serializes the reducers produced by the
adapters and folds them over the running state.  `applyAll` is that fold
for an explicit finite schedule; `Step` enumerates the reducers the
adapters can emit for a fixed course `arr`; `Reachable` is the set of
states the fold can produce from the initial snapshot. -/

def applyAll (l : List (State → State)) (s : State) : State :=
  l.foldl (fun st f => f st) s

/-- The reducers that the event-source adapters can emit, for a fixed
parsed course `arr`. -/
inductive Step (arr : List Entry) : (State → State) → Prop where
  | tickS : Step arr tick
  | moveS : Step arr movePipesReducer
  | spawnS (e : Entry) : e ∈ arr → Step arr (pipesReducer arr e)
  | starS : Step arr starReducer
  | skullS : Step arr skullReducer
  | ghostS : Step arr ghostReducer
  | jumpS : Step arr jumpReducer
  | pauseS : Step arr pauseReducer
  | restartS : Step arr restartReducer

/-- States reachable from the initial snapshot by the adapters. -/
inductive Reachable (arr : List Entry) : State → Prop where
  | init : Reachable arr initialState
  | step {s : State} {f : State → State} :
      Reachable arr s → Step arr f → Reachable arr (f s)

/-- The three reducer shapes named by the score-monotonicity claim:
simulation tick, obstacle motion, obstacle spawn. -/
inductive TickMoveSpawn : (State → State) → Prop where
  | tickT : TickMoveSpawn tick
  | moveT : TickMoveSpawn movePipesReducer
  | spawnT (arr : List Entry) (e : Entry) : TickMoveSpawn (pipesReducer arr e)

/-! ## Auxiliary notions used only in theorem statements -/

/-- Vertical mirror of a box: the interval `[y, y + height]` is mapped to
`[-(y + height), -y]`. -/
def mirrorY (b : Box) : Box := { b with y := -(b.y + b.height) }

/-- Score-bound invariant: the stored score never exceeds the score the
obstacle-motion adapter would recompute from the tracked pipes. -/
def scoreInv (s : State) : Prop := s.score ≤ scoreOf s.all_pipes s.score

/-- Course-bookkeeping invariant: before `fullScore` has been set, no
pipe has been injected. -/
def pipesInv (s : State) : Prop := s.fullScore = 0 → s.all_pipes = []

/-! ## Concrete scenario data -/

/-- Course entry used for the lives-underflow trace: a pipe whose top
segment spans `y ∈ [0, 200]` and whose bottom segment is degenerate. -/
def e2 : Entry := { gapY := 3/4, gapHeight := 1/2, delay := 0, special := false }

/-- Schedule prefix for the lives-underflow trace: set `fullScore`,
inject the pipe, carry it leftwards to `x = 184` (x-overlapping the
bird's fixed lane), then let the first tick start the game. -/
def setupC2 : List (State → State) :=
  [pipesReducer [e2] e2, pipesReducer [e2] e2] ++
  (List.replicate 52 movePipesReducer) ++ [tick]

/-- Schedule suffix for the lives-underflow trace: jumps steer the bird
into the parked pipe's top segment for four fresh collisions. -/
def runC2 : List (State → State) :=
  [jumpReducer, tick, jumpReducer, tick, tick, tick, tick, tick,
   jumpReducer, tick, jumpReducer, tick, tick, tick, tick,
   jumpReducer, tick, jumpReducer, tick, jumpReducer, tick, tick, tick, tick, tick,
   jumpReducer, tick, jumpReducer, tick, tick]

/-- A pipe whose top segment (height 200, at the bird's lane) overlaps a
bird flying at `y = 100`. -/
def c1Pipe : Pipe := { gapY := 1/2, gapHeight := 0, delay := 0, x := 159, special := false }

/-- A playing state on its last life, in fresh contact with a top pipe. -/
def c1State : State :=
  { initialState with gameStart := true, lives := 1, fullScore := 5,
                      position := 100, pipes := [c1Pipe] }

/-- A started state that has met the target score while an obstacle is
still on screen. -/
def c3State : State :=
  { initialState with gameStart := true, score := 1, fullScore := 1,
                      pipes := [c1Pipe], all_pipes := [c1Pipe] }

def c4A : Box := { x := 0, y := 40, width := 100, height := 100 }

def c4B : Box := { x := 0, y := 0, width := 100, height := 50 }

/-- A paused mid-game state (paused via the pause toggle, which flips
`gamePause`; the vestigial `pause` field stays `false`). -/
def c7State : State :=
  { initialState with gameStart := true, gamePause := true, velocity := 3 }

/-- A state inside the invulnerability window with the bird exactly on
top of both the star and the skull. -/
def c10State : State :=
  { initialState with gameStart := true, resume := true,
                      starx := BIRD_X, stary := initialState.position,
                      skullx := BIRD_X, skully := initialState.position }

/-- Course entry for the spawn-idempotence witness. -/
def eW : Entry := { gapY := 1/2, gapHeight := 1/4, delay := 0, special := false }

/-- State for the spawn-idempotence witness: the entry's reducer has
fired twice (setting `fullScore`, then injecting the pipe). -/
def sW : State := pipesReducer [eW] eW (pipesReducer [eW] eW initialState)

/-! ## Helper lemmas -/

theorem applyAll_nil (s : State) : applyAll [] s = s := rfl

theorem applyAll_cons (f : State → State) (l : List (State → State)) (s : State) :
    applyAll (f :: l) s = applyAll l (f s) := rfl

theorem reachable_applyAll {arr : List Entry} {l : List (State → State)} {s : State}
    (hs : Reachable arr s) (hl : ∀ f ∈ l, Step arr f) : Reachable arr (applyAll l s) := by
  induction l generalizing s with
  | nil => exact hs
  | cons f t ih =>
    rw [applyAll_cons]
    exact ih (hs.step (hl f (List.mem_cons_self f t))) (fun g hg => hl g (List.mem_cons_of_mem f hg))

theorem tick_frame (s : State) :
    (tick s).score = s.score ∧ (tick s).all_pipes = s.all_pipes ∧
    (tick s).fullScore = s.fullScore := by
  unfold tick
  dsimp only
  split_ifs <;> exact ⟨rfl, rfl, rfl⟩

theorem starReducer_frame (s : State) :
    (starReducer s).all_pipes = s.all_pipes ∧ (starReducer s).fullScore = s.fullScore := by
  unfold starReducer
  split_ifs <;> exact ⟨rfl, rfl⟩

theorem skullReducer_frame (s : State) :
    (skullReducer s).all_pipes = s.all_pipes ∧ (skullReducer s).fullScore = s.fullScore := by
  unfold skullReducer
  split_ifs <;> exact ⟨rfl, rfl⟩

theorem ghostReducer_frame (s : State) :
    (ghostReducer s).all_pipes = s.all_pipes ∧ (ghostReducer s).fullScore = s.fullScore := by
  unfold ghostReducer
  split_ifs <;> exact ⟨rfl, rfl⟩

theorem jumpReducer_frame (s : State) :
    (jumpReducer s).all_pipes = s.all_pipes ∧ (jumpReducer s).fullScore = s.fullScore := by
  unfold jumpReducer
  split_ifs <;> exact ⟨rfl, rfl⟩

theorem pipesInv_step {arr : List Entry} {f : State → State} (hf : Step arr f)
    {s : State} (hs : pipesInv s) : pipesInv (f s) := by
  cases hf with
  | tickS =>
    intro h0
    rw [(tick_frame s).2.1]
    exact hs ((tick_frame s).2.2 ▸ h0)
  | moveS =>
    unfold movePipesReducer
    dsimp only
    split_ifs with h1 h2
    · exact hs
    · intro h0
      simp [hs h0]
    · intro h0
      simp [hs h0]
  | spawnS e he =>
    unfold pipesReducer
    split_ifs with h1 h2 h3 h4
    · exact hs
    · intro h0
      exact hs h2
    · exact hs
    · intro h0
      exact absurd h0 h2
    · exact hs
  | starS => intro h0; rw [(starReducer_frame s).1]; exact hs ((starReducer_frame s).2 ▸ h0)
  | skullS => intro h0; rw [(skullReducer_frame s).1]; exact hs ((skullReducer_frame s).2 ▸ h0)
  | ghostS => intro h0; rw [(ghostReducer_frame s).1]; exact hs ((ghostReducer_frame s).2 ▸ h0)
  | jumpS => intro h0; rw [(jumpReducer_frame s).1]; exact hs ((jumpReducer_frame s).2 ▸ h0)
  | pauseS => exact hs
  | restartS => intro _; rfl

theorem reachable_pipesInv {arr : List Entry} {s : State} (h : Reachable arr s) :
    pipesInv s := by
  induction h with
  | init => intro _; rfl
  | step hr hf ih => exact pipesInv_step hf ih

theorem weight_nonneg (p : Pipe) : 0 ≤ weight p := by
  unfold weight
  split_ifs <;> norm_num

theorem foldl_add_weight (l : List Pipe) (n : ℤ) :
    l.foldl (fun sum p => sum + weight p) n = n + (l.map weight).sum := by
  induction l generalizing n with
  | nil => simp
  | cons p t ih => simp [List.foldl_cons, ih (n + weight p)]; ring

theorem scoreOf_eq_sum (l : List Pipe) (sc : ℤ) :
    scoreOf l sc =
      (l.map (fun p => if p.x - PIPE_WIDTH < (sc : ℚ) then weight p else 0)).sum := by
  unfold scoreOf
  rw [foldl_add_weight, zero_add]
  induction l with
  | nil => simp
  | cons p t ih =>
    by_cases h : p.x - PIPE_WIDTH < (sc : ℚ) <;>
      simp [List.filter_cons, h, ih]

theorem scoreOf_mono (l : List Pipe) {sc sc' : ℤ} (h : sc ≤ sc') :
    scoreOf l sc ≤ scoreOf l sc' := by
  rw [scoreOf_eq_sum, scoreOf_eq_sum]
  apply List.sum_le_sum
  intro p hp
  by_cases h1 : p.x - PIPE_WIDTH < (sc : ℚ)
  · have h2 : p.x - PIPE_WIDTH < (sc' : ℚ) := lt_of_lt_of_le h1 (by exact_mod_cast h)
    simp [h1, h2]
  · simp only [h1, if_false]
    split_ifs
    · exact weight_nonneg p
    · exact le_refl 0

theorem scoreOf_move (l : List Pipe) (sc : ℤ) :
    scoreOf l sc ≤ scoreOf (l.map (fun p => { p with x := p.x - PIPE_SPEED })) sc := by
  rw [scoreOf_eq_sum, scoreOf_eq_sum, List.map_map]
  apply List.sum_le_sum
  intro p hp
  dsimp only [Function.comp]
  by_cases h1 : p.x - PIPE_WIDTH < (sc : ℚ)
  · have h2 : p.x - PIPE_SPEED - PIPE_WIDTH < (sc : ℚ) := by
      have hps : (0 : ℚ) < PIPE_SPEED := by norm_num [PIPE_SPEED]
      linarith
    simp [h1, h2, weight]
  · simp only [h1, if_false]
    split_ifs
    · exact weight_nonneg _
    · exact le_refl 0

theorem scoreOf_append (l l2 : List Pipe) (sc : ℤ) :
    scoreOf l sc ≤ scoreOf (l ++ l2) sc := by
  rw [scoreOf_eq_sum, scoreOf_eq_sum, List.map_append, List.sum_append]
  have h2 : 0 ≤ ((l2.map (fun p => if p.x - PIPE_WIDTH < (sc : ℚ) then weight p else 0))).sum := by
    apply List.sum_nonneg
    intro x hx
    obtain ⟨p, hp, rfl⟩ := List.mem_map.mp hx
    split_ifs
    · exact weight_nonneg p
    · exact le_refl 0
  linarith

theorem scoreInv_initialState : scoreInv initialState := by
  norm_num [scoreInv, scoreOf, initialState]

theorem tms_score_step {f : State → State} (hf : TickMoveSpawn f) {s : State}
    (hs : scoreInv s) : s.score ≤ (f s).score ∧ scoreInv (f s) := by
  cases hf with
  | tickT =>
    refine ⟨le_of_eq ((tick_frame s).1).symm, ?_⟩
    unfold scoreInv
    rw [(tick_frame s).1, (tick_frame s).2.1]
    exact hs
  | moveT =>
    unfold movePipesReducer
    dsimp only
    split_ifs with h1 h2
    · exact ⟨le_refl _, hs⟩
    · refine ⟨hs, ?_⟩
      unfold scoreInv
      dsimp only
      calc scoreOf s.all_pipes s.score
          ≤ scoreOf (s.all_pipes.map (fun p => { p with x := p.x - PIPE_SPEED })) s.score :=
            scoreOf_move _ _
        _ ≤ scoreOf (s.all_pipes.map (fun p => { p with x := p.x - PIPE_SPEED }))
              (scoreOf s.all_pipes s.score) := scoreOf_mono _ hs
    · refine ⟨le_refl _, ?_⟩
      unfold scoreInv
      dsimp only
      exact le_trans hs (scoreOf_move _ _)
  | spawnT arr e =>
    unfold pipesReducer
    split_ifs with h1 h2 h3 h4
    · exact ⟨le_refl _, hs⟩
    · exact ⟨le_refl _, hs⟩
    · exact ⟨le_refl _, hs⟩
    · refine ⟨le_refl _, ?_⟩
      unfold scoreInv
      dsimp only
      exact le_trans hs (scoreOf_append _ _ _)
    · exact ⟨le_refl _, hs⟩

theorem scoreInv_applyAll {l : List (State → State)} {s : State} (hs : scoreInv s)
    (hl : ∀ g ∈ l, TickMoveSpawn g) : scoreInv (applyAll l s) := by
  induction l generalizing s with
  | nil => exact hs
  | cons f t ih =>
    rw [applyAll_cons]
    exact ih (tms_score_step (hl f (List.mem_cons_self f t)) hs).2
      (fun g hg => hl g (List.mem_cons_of_mem f hg))

theorem steps_setupC2 : ∀ f ∈ setupC2, Step [e2] f := by
  intro f hf
  simp only [setupC2, List.mem_append, List.mem_cons, List.not_mem_nil, or_false] at hf
  rcases hf with ((rfl | rfl) | hf) | rfl
  · exact Step.spawnS e2 (List.mem_cons_self e2 [])
  · exact Step.spawnS e2 (List.mem_cons_self e2 [])
  · rw [List.eq_of_mem_replicate hf]
    exact Step.moveS
  · exact Step.tickS

theorem steps_runC2 : ∀ f ∈ runC2, Step [e2] f := by
  intro f hf
  simp only [runC2, List.mem_cons, List.not_mem_nil, or_false] at hf
  rcases hf with rfl | rfl | rfl | rfl | rfl | rfl | rfl | rfl | rfl | rfl | rfl | rfl | rfl |
    rfl | rfl | rfl | rfl | rfl | rfl | rfl | rfl | rfl | rfl | rfl | rfl | rfl | rfl | rfl |
    rfl | rfl <;>
  first
    | exact Step.tickS
    | exact Step.jumpS

/-! ## The claims -/

/-- Claim C1: the claim asserts that a tick on a playing state whose
lives have reached zero transitions to the lost terminal state, and in
particular that from `lives = 1` a fresh top-pipe collision tick yields
`lives = 0` and the following tick yields `gameEnd = true`.  Evaluating
`tick` at such a state shows the first half (the collision does yield
`lives = 0`) but refutes the second: the following tick leaves
`gameEnd = false` — this `tick` contains no lives-based termination at
all, so the game never transitions to the lost state. -/
theorem claim_C1 :
    (tick c1State).lives = 0 ∧ (tick c1State).resume = true ∧
    (tick c1State).gameStart = true ∧ (tick c1State).gamePause = false ∧
    (tick (tick c1State)).gameEnd = false := by
  norm_num [tick, c1State, c1Pipe, initialState, isOverlap, topPipeBox, bottomPipeBox,
    createBox, generateRandom, RNG.scale, RNG.hash, RNG.a, RNG.c, RNG.m, Int.tmod_eq_emod,
    GROUND, CEILING, GRAVITY, TICK_RATE_MS, SEED, BIRD_X, BIRB_WIDTH, BIRB_HEIGHT,
    CANVAS_WIDTH, CANVAS_HEIGHT, PIPE_WIDTH]

set_option maxHeartbeats 4000000 in
/-- Claim C2: the claim asserts that `lives` stays non-negative in every
state reachable from the initial snapshot by the adapter reducers.  The
explicit schedule `setupC2 ++ runC2` (spawn a pipe, carry it into the
bird's lane, then steer the bird into it for four fresh collisions)
refutes this: the resulting reachable state has `lives = -1`, because
`tick` decrements `lives` on every fresh collision without any check
against zero. -/
theorem claim_C2 :
    Reachable [e2] (applyAll (setupC2 ++ runC2) initialState) ∧
    (applyAll (setupC2 ++ runC2) initialState).lives = -1 := by
  constructor
  · apply reachable_applyAll Reachable.init
    intro f hf
    rcases List.mem_append.mp hf with h | h
    · exact steps_setupC2 f h
    · exact steps_runC2 f h
  · norm_num [applyAll, setupC2, runC2, initialState, pipesReducer, movePipesReducer, tick, e2,
      totalWeight, entryWeight, scoreOf, weight, CANVAS_WIDTH, PIPE_SPEED, PIPE_WIDTH,
      List.replicate, List.filter_cons, isOverlap, GROUND, CEILING, GRAVITY,
      TICK_RATE_MS, SEED, JUMP_SPEED, BIRD_X, BIRB_WIDTH, BIRB_HEIGHT, CANVAS_HEIGHT,
      generateRandom, RNG.scale, RNG.hash, RNG.a, RNG.c, RNG.m, Int.tmod_eq_emod,
      topPipeBox, bottomPipeBox, createBox, jumpReducer, newPipe, pipeExists]

/-- Claim C3 (counterexample): a started, not-yet-ended state that has
met the target score while an obstacle is still on screen; the claim
says such a tick does not end the game, but `tick` sets
`gameEnd = true` — the win check does not consult the obstacle list. -/
theorem claim_C3_counterexample :
    c3State.gameStart = true ∧ c3State.gameEnd = false ∧
    c3State.score = c3State.fullScore ∧ c3State.pipes ≠ [] ∧
    (tick c3State).gameEnd = true := by
  refine ⟨rfl, rfl, rfl, by simp [c3State, initialState], ?_⟩
  norm_num [tick, c3State, initialState]

/-- Claim C3 (amended): for every started, not-yet-ended state, `tick`
ends the game exactly when the accumulated score equals the target
score, regardless of whether obstacles remain on screen; the win
transition leaves `lives` and `score` unchanged. -/
theorem claim_C3 (s : State) (hstart : s.gameStart = true) (hend : s.gameEnd = false) :
    ((tick s).gameEnd = true ↔ s.score = s.fullScore) ∧
    (s.score = s.fullScore → (tick s).lives = s.lives ∧ (tick s).score = s.score) := by
  unfold tick
  by_cases hsc : s.score = s.fullScore
  · simp [hstart, hend, hsc]
  · simp only [hstart, hend, hsc, Bool.true_eq_false, if_false, and_false, if_true,
      Bool.false_eq_true, or_false, true_and, and_true]
    split_ifs <;> simp [hend, hsc]

/-- Claim C3 (witness): the amended equivalence evaluated at the
concrete started state `c3State`. -/
theorem claim_C3_witness :
    ((tick c3State).gameEnd = true ↔ c3State.score = c3State.fullScore) ∧
    (c3State.score = c3State.fullScore →
      (tick c3State).lives = c3State.lives ∧ (tick c3State).score = c3State.score) :=
  claim_C3 c3State rfl rfl

/-- Claim C4 (counterexample): the collision predicate is not symmetric:
for the concrete boxes `c4A` and `c4B` it holds one way round and fails
the other, because the vertical margins differ (5 above, 15 below). -/
theorem claim_C4_counterexample : isOverlap c4A c4B ∧ ¬ isOverlap c4B c4A := by
  norm_num [isOverlap, c4A, c4B]

/-- Claim C4 (amended): swapping the arguments of `isOverlap` is
equivalent to vertically mirroring both boxes; the two horizontal
separation clauses are exchanged and each vertical clause maps to its
mirrored counterpart.  Full symmetry `isOverlap a b ↔ isOverlap b a`
fails (see the counterexample) precisely because the top margin (5) and
bottom margin (15) differ. -/
theorem claim_C4 (a b : Box) : isOverlap b a ↔ isOverlap (mirrorY a) (mirrorY b) := by
  obtain ⟨ax, ay, aw, ah⟩ := a
  obtain ⟨bx, bY, bw, bh⟩ := b
  simp only [isOverlap, mirrorY, not_iff_not, ge_iff_le]
  constructor
  · rintro (h | h | h | h)
    · right; left; linarith
    · left; linarith
    · right; right; left; linarith
    · right; right; right; linarith
  · rintro (h | h | h | h)
    · right; left; linarith
    · left; linarith
    · right; right; left; linarith
    · right; right; right; linarith

/-- Claim C5: over any schedule of tick, obstacle-spawn and
obstacle-motion reducers starting from the initial snapshot, the score
is non-decreasing: one more such reducer never lowers the score. -/
theorem claim_C5 (l : List (State → State)) (f : State → State)
    (hl : ∀ g ∈ l, TickMoveSpawn g) (hf : TickMoveSpawn f) :
    (applyAll l initialState).score ≤ (f (applyAll l initialState)).score :=
  (tms_score_step hf (scoreInv_applyAll scoreInv_initialState hl)).1

/-- Claim C5 (witness): one obstacle-motion step followed by a tick. -/
theorem claim_C5_witness :
    (applyAll [movePipesReducer] initialState).score ≤
      (tick (applyAll [movePipesReducer] initialState)).score :=
  claim_C5 [movePipesReducer] tick
    (by
      intro g hg
      simp only [List.mem_cons, List.not_mem_nil, or_false] at hg
      rw [hg]
      exact TickMoveSpawn.moveT)
    TickMoveSpawn.tickT

/-- Claim C6: the restart reducer returns the initial snapshot in every
field except the run counter, which is incremented, and the ghost trail
log, which is carried over unchanged from the pre-restart state. -/
theorem claim_C6 (s : State) :
    (restartReducer s).run = s.run + 1 ∧
    (restartReducer s).ghosts = s.ghosts ∧
    (restartReducer s).gameEnd = initialState.gameEnd ∧
    (restartReducer s).gameStart = initialState.gameStart ∧
    (restartReducer s).gamePause = initialState.gamePause ∧
    (restartReducer s).position = initialState.position ∧
    (restartReducer s).velocity = initialState.velocity ∧
    (restartReducer s).lives = initialState.lives ∧
    (restartReducer s).seed = initialState.seed ∧
    (restartReducer s).score = initialState.score ∧
    (restartReducer s).resume = initialState.resume ∧
    (restartReducer s).fullScore = initialState.fullScore ∧
    (restartReducer s).pipes = initialState.pipes ∧
    (restartReducer s).all_pipes = initialState.all_pipes ∧
    (restartReducer s).time = initialState.time ∧
    (restartReducer s).pause = initialState.pause ∧
    (restartReducer s).starx = initialState.starx ∧
    (restartReducer s).stary = initialState.stary ∧
    (restartReducer s).skullx = initialState.skullx ∧
    (restartReducer s).skully = initialState.skully := by
  refine ⟨rfl, rfl, rfl, rfl, rfl, rfl, rfl, rfl, rfl, rfl,
    rfl, rfl, rfl, rfl, rfl, rfl, rfl, rfl, rfl, rfl⟩

/-- Claim C7: the claim asserts the jump reducer leaves the state
unchanged while paused.  Evaluating it at the paused state `c7State`
(paused through the pause toggle, which flips `gamePause`) refutes
this: the reducer still overrides the velocity, because it consults the
vestigial `pause` field — which no reducer ever sets — instead of
`gamePause`. -/
theorem claim_C7 :
    c7State.gamePause = true ∧ c7State.resume = false ∧ c7State.gameEnd = false ∧
    c7State.pause = false ∧
    (jumpReducer c7State).velocity = JUMP_SPEED ∧ jumpReducer c7State ≠ c7State := by
  refine ⟨rfl, rfl, rfl, rfl, rfl, ?_⟩
  intro h
  have hv := congrArg State.velocity h
  norm_num [jumpReducer, c7State, initialState, JUMP_SPEED] at hv

theorem hash_bounds (seed : ℤ) (hs : 0 ≤ seed) :
    0 ≤ RNG.hash seed ∧ RNG.hash seed < RNG.m := by
  unfold RNG.hash
  have h1 : 0 ≤ RNG.a * seed := mul_nonneg (by norm_num [RNG.a]) hs
  have hd : 0 ≤ RNG.a * seed + RNG.c := by
    have : (0:ℤ) ≤ RNG.c := by norm_num [RNG.c]
    linarith
  have hm : (0:ℤ) < RNG.m := by norm_num [RNG.m]
  rw [Int.tmod_eq_emod hd (le_of_lt hm)]
  exact ⟨Int.emod_nonneg _ (ne_of_gt hm), Int.emod_lt_of_pos _ hm⟩

theorem scale_bounds {h : ℤ} (h0 : 0 ≤ h) (h1 : h < RNG.m) :
    -1 ≤ RNG.scale h ∧ RNG.scale h ≤ 1 := by
  unfold RNG.scale
  have hm : ((RNG.m : ℤ) : ℚ) - 1 = 2147483647 := by norm_num [RNG.m]
  have hq0 : (0:ℚ) ≤ (h:ℚ) := by exact_mod_cast h0
  have hi : h ≤ 2147483647 := by
    have : h < 2147483648 := by norm_num [RNG.m] at h1; exact h1
    omega
  have hq1 : (h:ℚ) ≤ 2147483647 := by exact_mod_cast hi
  rw [hm]
  constructor
  · have : (0:ℚ) ≤ 2 * (h:ℚ) / 2147483647 := by positivity
    linarith
  · have h2 : 2 * (h:ℚ) / 2147483647 ≤ 2 := by
      rw [div_le_iff₀ (by norm_num : (0:ℚ) < 2147483647)]
      linarith
    linarith

/-- Claim C8 (counterexample): for a negative seed the truncating `%`
yields a negative hash, so the scaled value falls below `-1` and
`generateRandom` escapes the requested interval: with `min = 0 ≤ 1 =
max` and `seed = -1` the draw is negative. -/
theorem claim_C8_counterexample :
    (0:ℚ) ≤ 1 ∧ generateRandom 0 1 (-1) < 0 ∧ RNG.scale (RNG.hash (-1)) < -1 := by
  have hh : RNG.hash (-1) = -1103502900 := by decide
  refine ⟨by norm_num, ?_, ?_⟩ <;>
    norm_num [generateRandom, hh, RNG.scale, RNG.m]

/-- Claim C8 (amended): for every `min ≤ max` and every seed `≥ 0` — as
all seeds occurring in the program are, starting from the non-negative
constant and advancing by `hash` — `generateRandom` lands in
`[min, max]` and `scale ∘ hash` lands in `[-1, 1]`. -/
theorem claim_C8 (a b : ℚ) (seed : ℤ) (hab : a ≤ b) (hs : 0 ≤ seed) :
    (a ≤ generateRandom a b seed ∧ generateRandom a b seed ≤ b) ∧
    (-1 ≤ RNG.scale (RNG.hash seed) ∧ RNG.scale (RNG.hash seed) ≤ 1) := by
  obtain ⟨h0, h1⟩ := hash_bounds seed hs
  obtain ⟨hl, hr⟩ := scale_bounds h0 h1
  refine ⟨?_, hl, hr⟩
  unfold generateRandom
  set t := RNG.scale (RNG.hash seed) with ht
  constructor
  · nlinarith [mul_nonneg (sub_nonneg.mpr hab) (by linarith : (0:ℚ) ≤ t + 1)]
  · nlinarith [mul_nonneg (sub_nonneg.mpr hab) (by linarith : (0:ℚ) ≤ 1 - t)]

/-- Claim C8 (witness): the amended bounds at `min = 0`, `max = 1`,
`seed = 0`. -/
theorem claim_C8_witness :
    ((0:ℚ) ≤ generateRandom 0 1 0 ∧ generateRandom 0 1 0 ≤ 1) ∧
    (-1 ≤ RNG.scale (RNG.hash 0) ∧ RNG.scale (RNG.hash 0) ≤ 1) :=
  claim_C8 0 1 0 (by norm_num) le_rfl

/-- Claim C9: the obstacle-spawn reducer injects exactly one pipe per
course entry.  In every reachable state in which the entry's pipe has
already been added, re-firing the entry's reducer is a no-op
(duplicate-injection guard keyed by the entry's gap/height/delay
identity); and whenever the entry's delay has elapsed, the target score
is set, the game is neither paused nor ended, and the entry's pipe is
absent, firing the reducer appends exactly that entry's fresh pipe. -/
theorem claim_C9 (arr : List Entry) (e : Entry) (s : State) (hr : Reachable arr s) :
    (pipeExists e s.all_pipes → pipesReducer arr e s = s) ∧
    (s.gamePause = false → s.gameEnd = false → s.fullScore ≠ 0 →
      (e.delay * 1000 : ℚ) ≤ (s.time : ℚ) → ¬ pipeExists e s.all_pipes →
      pipesReducer arr e s = { s with all_pipes := s.all_pipes ++ [newPipe e] }) := by
  constructor
  · intro hex
    have hne : s.fullScore ≠ 0 := by
      intro h0
      rw [reachable_pipesInv hr h0] at hex
      obtain ⟨p, hp, -⟩ := hex
      exact List.not_mem_nil p hp
    unfold pipesReducer
    by_cases h1 : s.gamePause = true ∨ s.gameEnd = true
    · rw [if_pos h1]
    · rw [if_neg h1, if_neg hne]
      by_cases h3 : (e.delay * 1000 : ℚ) ≤ (s.time : ℚ)
      · rw [if_pos h3, if_pos hex]
      · rw [if_neg h3]
  · intro hp he hne ht hex
    unfold pipesReducer
    rw [if_neg (by simp [hp, he]), if_neg hne, if_pos ht, if_neg hex]

/-- Claim C9 (witness): for the one-entry course `[eW]`, after the
reducer has fired twice from the initial snapshot (setting `fullScore`,
then injecting the pipe), firing it again returns the state unchanged. -/
theorem claim_C9_witness : pipesReducer [eW] eW sW = sW :=
  (claim_C9 [eW] eW sW
    ((Reachable.init.step (Step.spawnS eW (List.mem_cons_self eW []))).step
      (Step.spawnS eW (List.mem_cons_self eW [])))).1
    (by
      norm_num [sW, eW, pipesReducer, initialState, totalWeight, entryWeight, pipeExists,
        newPipe, CANVAS_WIDTH])

/-- Claim C10: while the avatar is inside the post-collision
invulnerability window (`resume = true`), the star and skull proximity
effects are suppressed: the star reducer does not change the life count
and the skull reducer does not zero it, even when the avatar is within
the trigger radius. -/
theorem claim_C10 (s : State) (h : s.resume = true) :
    (starReducer s).lives = s.lives ∧ (skullReducer s).lives = s.lives := by
  constructor
  · unfold starReducer
    split_ifs with h1 h2 h3
    · rfl
    · rw [h] at h2
      simp at h2
    · rfl
    · rfl
  · unfold skullReducer
    split_ifs with h1 h2 h3
    · rfl
    · rw [h] at h2
      simp at h2
    · rfl
    · rfl

/-- Claim C10 (witness): the suppression evaluated at a state inside the
invulnerability window with the bird exactly on the star and skull. -/
theorem claim_C10_witness :
    (starReducer c10State).lives = c10State.lives ∧
    (skullReducer c10State).lives = c10State.lives :=
  claim_C10 c10State rfl

/-- Claim C4 (witness): the swap/mirror identity at the concrete boxes
of the counterexample. -/
theorem claim_C4_witness :
    isOverlap c4B c4A ↔ isOverlap (mirrorY c4A) (mirrorY c4B) :=
  claim_C4 c4A c4B

/-- Claim C6 (witness): the restart frame property at the initial
snapshot itself. -/
theorem claim_C6_witness :
    (restartReducer initialState).run = initialState.run + 1 ∧
    (restartReducer initialState).ghosts = initialState.ghosts ∧
    (restartReducer initialState).gameEnd = initialState.gameEnd ∧
    (restartReducer initialState).gameStart = initialState.gameStart ∧
    (restartReducer initialState).gamePause = initialState.gamePause ∧
    (restartReducer initialState).position = initialState.position ∧
    (restartReducer initialState).velocity = initialState.velocity ∧
    (restartReducer initialState).lives = initialState.lives ∧
    (restartReducer initialState).seed = initialState.seed ∧
    (restartReducer initialState).score = initialState.score ∧
    (restartReducer initialState).resume = initialState.resume ∧
    (restartReducer initialState).fullScore = initialState.fullScore ∧
    (restartReducer initialState).pipes = initialState.pipes ∧
    (restartReducer initialState).all_pipes = initialState.all_pipes ∧
    (restartReducer initialState).time = initialState.time ∧
    (restartReducer initialState).pause = initialState.pause ∧
    (restartReducer initialState).starx = initialState.starx ∧
    (restartReducer initialState).stary = initialState.stary ∧
    (restartReducer initialState).skullx = initialState.skullx ∧
    (restartReducer initialState).skully = initialState.skully :=
  claim_C6 initialState
